import Mathlib

/-!
Verification development for the auth_lib authenticated HTTP client layer.

The executor model below is a shallow embedding of
`src/hooks/useFirebaseAuthNetworkClient.ts`: `getAuthToken`, `logoutUser`,
`injectAuthToken` and `executeWithRetry`.  Headers are abstracted to the
single `Authorization` entry (an `Option String`, `none` when the caller
supplied no such entry); the transport is a function from the attempt
index to either a transport fault or a `Response`.  A `Trace` records how
many times `Transport.send` was invoked, which `Authorization` value each
attempt carried, and which session-event notifications were emitted.
-/

/-- HTTP response object as produced by the wrapped transport
(`network.request`): carries `ok`, `status` and a body. -/
structure Response where
  ok : Bool
  status : Nat
  body : String
deriving DecidableEq

/-- The `NetworkResponse` value built by `parseResponse` in
`useFirebaseAuthNetworkClient.ts` (the `timestamp` field, a wall-clock
string, is omitted; `data` is the parsed body). -/
structure NetworkResponse where
  ok : Bool
  status : Nat
  data : String
  success : Bool
deriving DecidableEq

/-- Embedding of `parseResponse`: copies `ok`/`status`, parses the body
into `data`, and sets `success := response.ok`. -/
def parseResponse (r : Response) : NetworkResponse :=
  { ok := r.ok, status := r.status, data := r.body, success := r.ok }

/-- A Firebase user object: `getIdToken(forceRefresh)` either yields a
token string or throws (modelled as `Except.error`). -/
structure FirebaseUser where
  getIdToken : Bool → Except String String

/-- The Firebase auth instance: may or may not have a current user. -/
structure FirebaseAuth where
  currentUser : Option FirebaseUser

/-- Embedding of `getAuthToken` from `useFirebaseAuthNetworkClient.ts`:
returns the empty string when there is no auth instance, no current user,
or `getIdToken` throws; otherwise returns the token. -/
def getAuthToken (auth : Option FirebaseAuth) (forceRefresh : Bool) : String :=
  match auth with
  | none => ""
  | some a =>
    match a.currentUser with
    | none => ""
    | some user =>
      match user.getIdToken forceRefresh with
      | .ok t => t
      | .error _ => ""

/-- Embedding of `logoutUser`: returns `(signOutCalls, onLogoutCalls)`.
When `getFirebaseAuth()` is `null` it returns at once (no `signOut`, no
`onLogout`); otherwise `signOut` is called, and `onLogout` fires only if
it succeeded (`signOutOk`); a `signOut` failure is swallowed. -/
def logoutUser (auth : Option FirebaseAuth) (signOutOk : Bool) : Nat × Nat :=
  match auth with
  | none => (0, 0)
  | some _ => if signOutOk then (1, 1) else (1, 0)

/-- JS truthiness of `headers['Authorization']`: true iff the entry is
present with a non-empty value. -/
def hasAuthHeader (h : Option String) : Bool :=
  match h with
  | none => false
  | some s => s != ""

/-- Embedding of `injectAuthToken`: when `headers['Authorization']` is
falsy, fetch a token with `getAuthToken(false)` and, if non-empty, set
`Authorization: Bearer <token>`; otherwise leave the headers as supplied. -/
def injectAuthToken (auth : Option FirebaseAuth) (h : Option String) : Option String :=
  if hasAuthHeader h then h
  else
    let token := getAuthToken auth false
    if token != "" then some ("Bearer " ++ token) else h

/-- Environment of one logical request: the auth instance visible to
`getAuthToken`/`logoutUser`, the transport (attempt index to fault or
response), and whether `signOut` succeeds. -/
structure ExecEnv where
  auth : Option FirebaseAuth
  send : Nat → Except String Response
  signOutOk : Bool

/-- Observable trace of one logical request: number of `Transport.send`
invocations, the `Authorization` entry carried by each attempt (`h2` is
`none` when no second attempt happened), the errors passed to
`onTokenRefreshFailed`, and the `signOut`/`onLogout` invocation counts. -/
structure Trace where
  sends : Nat
  h1 : Option String
  h2 : Option (Option String)
  refreshFailedErrors : List String
  signOutCalls : Nat
  logoutCalls : Nat
deriving DecidableEq

/-- The tail of `executeWithRetry` reached with the first response in
hand: the `if (response.status === 403)` block followed by
`return parseResponse(response)`. -/
def finishResponse (env : ExecEnv) (resp : Response) (tr : Trace) :
    Except String NetworkResponse × Trace :=
  if resp.status = 403 then
    let so := logoutUser env.auth env.signOutOk
    (.ok (parseResponse resp), { tr with signOutCalls := so.1, logoutCalls := so.2 })
  else
    (.ok (parseResponse resp), tr)

/-- Embedding of `executeWithRetry`: inject the auth token, send; on 401
force-refresh the token and, if one was obtained, send exactly once more
with `Authorization: Bearer <freshToken>` (built over the caller-supplied
headers) and return that second result as-is; if the refresh yielded no
token, emit `onTokenRefreshFailed` and fall through; on 403 run the
logout path; otherwise return the parsed first response.  A transport
rejection propagates unchanged. -/
def executeWithRetry (env : ExecEnv) (h : Option String) :
    Except String NetworkResponse × Trace :=
  let authedH := injectAuthToken env.auth h
  let tr1 : Trace :=
    { sends := 1, h1 := authedH, h2 := none, refreshFailedErrors := [],
      signOutCalls := 0, logoutCalls := 0 }
  match env.send 0 with
  | .error f => (.error f, tr1)
  | .ok resp =>
    if resp.status = 401 then
      let freshToken := getAuthToken env.auth true
      if freshToken != "" then
        let retryH : Option String := some ("Bearer " ++ freshToken)
        let tr2 := { tr1 with sends := 2, h2 := some retryH }
        match env.send 1 with
        | .error f => (.error f, tr2)
        | .ok r2 => (.ok (parseResponse r2), tr2)
      else
        finishResponse env resp
          { tr1 with refreshFailedErrors := ["Failed to refresh token"] }
    else
      finishResponse env resp tr1

/-- Modelled from the spec: a `Token` as in section 3 of the design
document — an opaque string credential with its fetch timestamp.  The
TokenCache implementation (the module-level token cache whose
`invalidateTokenCache` is re-exported by `src/hooks/index.ts` and
exercised by `useFirebaseAuthNetworkClient.test.ts`) is missing from the
sources, so the cache is modelled from the specification text. -/
structure Token where
  value : String
  issuedAt : Nat
deriving DecidableEq

/-- Modelled from the spec: the TokenCache state of section 3 — a single
cached token, the TTL in milliseconds, and the in-flight fetch marker.
`waiters` counts the concurrent callers awaiting the in-flight fetch and
`fetches` counts cumulative `SessionProvider.fetchToken` invocations, so
the single-flight property is observable. -/
structure TokenCacheState where
  token : Option Token
  ttlMs : Nat
  inFlight : Bool
  waiters : Nat
  fetches : Nat
deriving DecidableEq

/-- Modelled from the spec: a cached token is fresh iff
`now - issuedAt < ttlMs`. -/
def isFresh (st : TokenCacheState) (now : Nat) : Bool :=
  match st.token with
  | some t => decide (now - t.issuedAt < st.ttlMs)
  | none => false

/-- Outcome of one caller running `TokenCache.get` to its suspension
point: either an immediate cached token (no I/O) or the caller is now
awaiting the (single) in-flight fetch. -/
inductive GetOutcome where
  | immediate (t : Token)
  | awaiting
deriving DecidableEq

/-- Modelled from the spec: the non-immediate tail of `get` — if a fetch
is already in flight, await it (do not start a second fetch); otherwise
start one, invoking `SessionProvider.fetchToken` (counted by `fetches`). -/
def startOrJoin (st : TokenCacheState) : GetOutcome × TokenCacheState :=
  if st.inFlight then
    (.awaiting, { st with waiters := st.waiters + 1 })
  else
    (.awaiting,
      { st with inFlight := true, waiters := st.waiters + 1,
                fetches := st.fetches + 1 })

/-- Modelled from the spec: `TokenCache.get(forceRefresh)` run to its
first suspension point.  With `forceRefresh` false and a fresh cached
token, return it immediately with no I/O and no state change; otherwise
join or start the single in-flight fetch. -/
def getStep (st : TokenCacheState) (now : Nat) (forceRefresh : Bool) :
    GetOutcome × TokenCacheState :=
  match st.token with
  | some t =>
    if forceRefresh = false ∧ isFresh st now = true then (.immediate t, st)
    else startOrJoin st
  | none => startOrJoin st

/-- The result each awaiting caller observes once the provider fetch
resolves: the new token stamped at `now`, or the provider's failure. -/
def deliver (now : Nat) (result : Except String String) : Except String Token :=
  match result with
  | .ok v => .ok { value := v, issuedAt := now }
  | .error e => .error e

/-- Modelled from the spec: completion of the in-flight fetch.  On
success store the new token with a fresh `issuedAt` and hand the same
token to every waiter; on failure clear any cached token and hand the
same failure to every waiter; in both cases clear the in-flight marker. -/
def resolveFetch (st : TokenCacheState) (now : Nat)
    (result : Except String String) :
    List (Except String Token) × TokenCacheState :=
  match result with
  | .ok v =>
    let t : Token := { value := v, issuedAt := now }
    (List.replicate st.waiters (.ok t),
      { st with token := some t, inFlight := false, waiters := 0 })
  | .error e =>
    (List.replicate st.waiters (.error e),
      { st with token := none, inFlight := false, waiters := 0 })

/-- Modelled from the spec: `n` concurrent callers each running
`TokenCache.get` to its suspension point, interleaved cooperatively at
the same instant. -/
def runBatch (st : TokenCacheState) (now : Nat) (forceRefresh : Bool) :
    Nat → TokenCacheState
  | 0 => st
  | Nat.succ n => runBatch (getStep st now forceRefresh).2 now forceRefresh n

/-- Firebase configuration object (`FirebaseConfig` in `config/types.ts`),
restricted to the four fields `isFirebaseConfigured` requires. -/
structure FirebaseConfig where
  apiKey : String
  authDomain : String
  projectId : String
  appId : String
deriving DecidableEq

/-- The module-level singleton state of `config/firebase-init.ts`:
`firebaseApp`, `firebaseAuth` (app and auth instances, abstracted to
identifiers) and `firebaseConfig`. -/
structure FirebaseInitState where
  firebaseApp : Option Nat
  firebaseAuth : Option Nat
  firebaseConfig : Option FirebaseConfig
deriving DecidableEq

/-- The module state before any initialization. -/
def emptyFirebaseInitState : FirebaseInitState :=
  { firebaseApp := none, firebaseAuth := none, firebaseConfig := none }

/-- Embedding of `isFirebaseConfigured` from `config/firebase-init.ts`:
true iff a config is stored and its four required fields are truthy
(non-empty). -/
def isFirebaseConfigured (st : FirebaseInitState) : Bool :=
  match st.firebaseConfig with
  | none => false
  | some c =>
    c.apiKey != "" && c.authDomain != "" && c.projectId != "" && c.appId != ""

/-- The Firebase SDK surface used by `initializeFirebaseAuth`: whether
`getApps()` is empty, `initializeApp` (fresh app from a config), `getApp`
(the existing app) and `getAuth`. -/
structure FirebaseSdk where
  appsEmpty : Bool
  newApp : FirebaseConfig → Nat
  existingApp : Nat
  authOf : Nat → Nat

/-- Result of one `initializeFirebaseAuth` call: the returned value (or
the thrown error), the updated module state, and how many SDK
app/auth-construction calls were made during this call. -/
structure InitOutcome where
  result : Except String (Nat × Nat)
  state : FirebaseInitState
  sdkCalls : Nat

/-- Embedding of `initializeFirebaseAuth` from `config/firebase-init.ts`
(the name is shortened for this development): store the config; if both
singletons are already set, return them with no SDK call; else validate
the config (throw when incomplete), obtain the app via `initializeApp`
or `getApp`, obtain auth via `getAuth`, store both and return them. -/
def initFirebaseAuth (sdk : FirebaseSdk) (st : FirebaseInitState)
    (config : FirebaseConfig) : InitOutcome :=
  let st1 := { st with firebaseConfig := some config }
  match st1.firebaseApp, st1.firebaseAuth with
  | some a, some au => { result := .ok (a, au), state := st1, sdkCalls := 0 }
  | _, _ =>
    if isFirebaseConfigured st1 = false then
      { result := .error "[auth_lib] Firebase configuration is incomplete. Required fields: apiKey, authDomain, projectId, appId",
        state := st1, sdkCalls := 0 }
    else
      let app := if sdk.appsEmpty then sdk.newApp config else sdk.existingApp
      let auth := sdk.authOf app
      { result := .ok (app, auth),
        state := { st1 with firebaseApp := some app, firebaseAuth := some auth },
        sdkCalls := 2 }

/-- Embedding of `getFirebaseApp`: the cached app instance or null. -/
def getFirebaseApp (st : FirebaseInitState) : Option Nat :=
  st.firebaseApp

/-- Embedding of `getFirebaseAuth`: the cached auth instance or null. -/
def getFirebaseAuth (st : FirebaseInitState) : Option Nat :=
  st.firebaseAuth


/-- A Firebase user whose `getIdToken` always succeeds with `t`. -/
def okUser (t : String) : FirebaseUser :=
  { getIdToken := fun _ => .ok t }

/-- A Firebase user whose `getIdToken` always throws `e`. -/
def errUser (e : String) : FirebaseUser :=
  { getIdToken := fun _ => .error e }

/-- An auth instance with a signed-in user holding token `t`. -/
def someAuth (t : String) : Option FirebaseAuth :=
  some { currentUser := some (okUser t) }

/-- A concrete executor environment whose transport answers attempt `i`
with the `i`-th entry of `rs` (and 200 OK past the end). -/
def mkEnv (auth : Option FirebaseAuth) (rs : List (Except String Response))
    (so : Bool) : ExecEnv :=
  { auth := auth,
    send := fun i => rs.getD i (.ok { ok := true, status := 200, body := "" }),
    signOutOk := so }

/-- A concrete Firebase SDK with no app yet: `initializeApp` yields app 1
and `getAuth` yields `app + 10`. -/
def sdkW : FirebaseSdk :=
  { appsEmpty := true, newApp := fun _ => 1, existingApp := 7,
    authOf := fun n => n + 10 }

/-- A complete concrete Firebase configuration. -/
def cfgW : FirebaseConfig :=
  { apiKey := "k", authDomain := "d", projectId := "p", appId := "i" }

/-- An empty token cache with the documented 300000 ms TTL. -/
def cacheW : TokenCacheState :=
  { token := none, ttlMs := 300000, inFlight := false, waiters := 0,
    fetches := 0 }

/-- A token cache holding `"T1"` fetched at t=0, TTL 300000 ms. -/
def cacheFreshW : TokenCacheState :=
  { token := some { value := "T1", issuedAt := 0 }, ttlMs := 300000,
    inFlight := false, waiters := 0, fetches := 1 }

/-- Environment: first attempt 401, fresh token `"T3"` available, second
attempt 200. -/
def env401retry : ExecEnv :=
  mkEnv (someAuth "T3")
    [.ok { ok := false, status := 401, body := "u" },
     .ok { ok := true, status := 200, body := "fresh" }] true

/-- Environment: 403 with an auth instance present and `signOut`
succeeding. -/
def env403 : ExecEnv :=
  mkEnv (someAuth "T1") [.ok { ok := false, status := 403, body := "denied" }] true

/-- Environment: 403 with no auth instance (`getFirebaseAuth()` null). -/
def env403noauth : ExecEnv :=
  mkEnv none [.ok { ok := false, status := 403, body := "denied" }] true

/-- Environment: 401 with no auth instance, so the forced refresh yields
the empty string. -/
def env401fail : ExecEnv :=
  mkEnv none [.ok { ok := false, status := 401, body := "u" }] true

/-- Environment: plain 200 success. -/
def env200 : ExecEnv :=
  mkEnv (someAuth "T1") [.ok { ok := true, status := 200, body := "hello" }] true

/-- Environment: the transport rejects with a connectivity fault. -/
def envFault : ExecEnv :=
  mkEnv (someAuth "T1") [.error "ECONNRESET"] true

/-- Environment: token `"tok"` available, transport returns 200. -/
def envOverride : ExecEnv :=
  mkEnv (someAuth "tok") [.ok { ok := true, status := 200, body := "" }] true

lemma finishResponse_not403 (env : ExecEnv) (resp : Response) (tr : Trace)
    (hst : resp.status ≠ 403) :
    finishResponse env resp tr = (.ok (parseResponse resp), tr) := by
  unfold finishResponse
  rw [if_neg hst]

lemma finishResponse_403 (env : ExecEnv) (resp : Response) (tr : Trace)
    (hst : resp.status = 403) :
    finishResponse env resp tr =
      (.ok (parseResponse resp),
        { tr with signOutCalls := (logoutUser env.auth env.signOutOk).1,
                  logoutCalls := (logoutUser env.auth env.signOutOk).2 }) := by
  unfold finishResponse
  rw [if_pos hst]

lemma exec_send0_error (env : ExecEnv) (h : Option String) (f : String)
    (hs : env.send 0 = .error f) :
    executeWithRetry env h =
      (.error f,
        { sends := 1, h1 := injectAuthToken env.auth h, h2 := none,
          refreshFailedErrors := [], signOutCalls := 0, logoutCalls := 0 }) := by
  unfold executeWithRetry
  rw [hs]

lemma exec_retry_ok (env : ExecEnv) (h : Option String) (r r2 : Response)
    (hs0 : env.send 0 = .ok r) (h401 : r.status = 401)
    (htok : getAuthToken env.auth true ≠ "") (hs1 : env.send 1 = .ok r2) :
    executeWithRetry env h =
      (.ok (parseResponse r2),
        { sends := 2, h1 := injectAuthToken env.auth h,
          h2 := some (some ("Bearer " ++ getAuthToken env.auth true)),
          refreshFailedErrors := [], signOutCalls := 0, logoutCalls := 0 }) := by
  unfold executeWithRetry
  rw [hs0, hs1]
  simp [h401, htok]

lemma exec_retry_error (env : ExecEnv) (h : Option String) (r : Response) (f : String)
    (hs0 : env.send 0 = .ok r) (h401 : r.status = 401)
    (htok : getAuthToken env.auth true ≠ "") (hs1 : env.send 1 = .error f) :
    executeWithRetry env h =
      (.error f,
        { sends := 2, h1 := injectAuthToken env.auth h,
          h2 := some (some ("Bearer " ++ getAuthToken env.auth true)),
          refreshFailedErrors := [], signOutCalls := 0, logoutCalls := 0 }) := by
  unfold executeWithRetry
  rw [hs0, hs1]
  simp [h401, htok]

lemma exec_refresh_failed (env : ExecEnv) (h : Option String) (r : Response)
    (hs0 : env.send 0 = .ok r) (h401 : r.status = 401)
    (htok : getAuthToken env.auth true = "") :
    executeWithRetry env h =
      (.ok (parseResponse r),
        { sends := 1, h1 := injectAuthToken env.auth h, h2 := none,
          refreshFailedErrors := ["Failed to refresh token"],
          signOutCalls := 0, logoutCalls := 0 }) := by
  unfold executeWithRetry
  rw [hs0]
  simp only [h401, htok]
  rw [finishResponse_not403]
  · simp [h401]
  · rw [h401]
    decide

lemma exec_other (env : ExecEnv) (h : Option String) (r : Response)
    (hs0 : env.send 0 = .ok r) (h401 : r.status ≠ 401) :
    executeWithRetry env h =
      finishResponse env r
        { sends := 1, h1 := injectAuthToken env.auth h, h2 := none,
          refreshFailedErrors := [], signOutCalls := 0, logoutCalls := 0 } := by
  unfold executeWithRetry
  rw [hs0]
  simp [h401]

lemma finishResponse_sends (env : ExecEnv) (resp : Response) (tr : Trace) :
    (finishResponse env resp tr).2.sends = tr.sends := by
  unfold finishResponse
  split <;> rfl

lemma finishResponse_h1 (env : ExecEnv) (resp : Response) (tr : Trace) :
    (finishResponse env resp tr).2.h1 = tr.h1 := by
  unfold finishResponse
  split <;> rfl

lemma finishResponse_h2 (env : ExecEnv) (resp : Response) (tr : Trace) :
    (finishResponse env resp tr).2.h2 = tr.h2 := by
  unfold finishResponse
  split <;> rfl

lemma finishResponse_refresh (env : ExecEnv) (resp : Response) (tr : Trace) :
    (finishResponse env resp tr).2.refreshFailedErrors = tr.refreshFailedErrors := by
  unfold finishResponse
  split <;> rfl

lemma logoutUser_fst_le (auth : Option FirebaseAuth) (so : Bool) :
    (logoutUser auth so).1 ≤ 1 := by
  unfold logoutUser
  cases auth with
  | none => simp
  | some a => cases so <;> simp

lemma logoutUser_snd_le (auth : Option FirebaseAuth) (so : Bool) :
    (logoutUser auth so).2 ≤ 1 := by
  unfold logoutUser
  cases auth with
  | none => simp
  | some a => cases so <;> simp

lemma exec_h1 (env : ExecEnv) (h : Option String) :
    (executeWithRetry env h).2.h1 = injectAuthToken env.auth h := by
  cases hs : env.send 0 with
  | error f => rw [exec_send0_error env h f hs]
  | ok r =>
    by_cases h401 : r.status = 401
    · by_cases htok : getAuthToken env.auth true = ""
      · rw [exec_refresh_failed env h r hs h401 htok]
      · cases hs1 : env.send 1 with
        | error f => rw [exec_retry_error env h r f hs h401 htok hs1]
        | ok r2 => rw [exec_retry_ok env h r r2 hs h401 htok hs1]
    · rw [exec_other env h r hs h401, finishResponse_h1]

lemma exec_sends_le (env : ExecEnv) (h : Option String) :
    (executeWithRetry env h).2.sends ≤ 2 := by
  cases hs : env.send 0 with
  | error f => rw [exec_send0_error env h f hs]; simp
  | ok r =>
    by_cases h401 : r.status = 401
    · by_cases htok : getAuthToken env.auth true = ""
      · rw [exec_refresh_failed env h r hs h401 htok]; simp
      · cases hs1 : env.send 1 with
        | error f => rw [exec_retry_error env h r f hs h401 htok hs1]
        | ok r2 => rw [exec_retry_ok env h r r2 hs h401 htok hs1]
    · rw [exec_other env h r hs h401, finishResponse_sends]; simp

lemma exec_sends_ge (env : ExecEnv) (h : Option String) :
    1 ≤ (executeWithRetry env h).2.sends := by
  cases hs : env.send 0 with
  | error f => rw [exec_send0_error env h f hs]
  | ok r =>
    by_cases h401 : r.status = 401
    · by_cases htok : getAuthToken env.auth true = ""
      · rw [exec_refresh_failed env h r hs h401 htok]
      · cases hs1 : env.send 1 with
        | error f => rw [exec_retry_error env h r f hs h401 htok hs1]; simp
        | ok r2 => rw [exec_retry_ok env h r r2 hs h401 htok hs1]; simp
    · rw [exec_other env h r hs h401, finishResponse_sends]

lemma exec_callbacks_le (env : ExecEnv) (h : Option String) :
    (executeWithRetry env h).2.refreshFailedErrors.length
      + (executeWithRetry env h).2.logoutCalls ≤ 1 := by
  cases hs : env.send 0 with
  | error f => rw [exec_send0_error env h f hs]; simp
  | ok r =>
    by_cases h401 : r.status = 401
    · by_cases htok : getAuthToken env.auth true = ""
      · rw [exec_refresh_failed env h r hs h401 htok]; simp
      · cases hs1 : env.send 1 with
        | error f => rw [exec_retry_error env h r f hs h401 htok hs1]; simp
        | ok r2 => rw [exec_retry_ok env h r r2 hs h401 htok hs1]; simp
    · rw [exec_other env h r hs h401]
      by_cases h403 : r.status = 403
      · rw [finishResponse_403 env r _ h403]
        simpa using logoutUser_snd_le env.auth env.signOutOk
      · rw [finishResponse_not403 env r _ h403]
        simp

lemma injectAuthToken_has (auth : Option FirebaseAuth) (h : Option String)
    (hh : hasAuthHeader h = true) : injectAuthToken auth h = h := by
  unfold injectAuthToken
  rw [if_pos hh]

lemma injectAuthToken_skip (auth : Option FirebaseAuth) (h : Option String)
    (hh : hasAuthHeader h = false) (htok : getAuthToken auth false = "") :
    injectAuthToken auth h = h := by
  unfold injectAuthToken
  rw [if_neg (by simp [hh])]
  simp [htok]

lemma injectAuthToken_inject (auth : Option FirebaseAuth) (h : Option String)
    (hh : hasAuthHeader h = false) (htok : getAuthToken auth false ≠ "") :
    injectAuthToken auth h = some ("Bearer " ++ getAuthToken auth false) := by
  unfold injectAuthToken
  rw [if_neg (by simp [hh])]
  simp [htok]

/-- Claim C1: for every logical request whose first `Transport.send`
returns status 401, the executor performs a forced token refresh; if a
token is obtained it sends exactly one second attempt carrying the
refreshed `Authorization` header and returns that second attempt's
result as-is (success or failure, any status), and in all cases
`Transport.send` is invoked at most twice for that logical request. -/
theorem executor_401_retry_once_bounded (env : ExecEnv) (h : Option String) :
    (executeWithRetry env h).2.sends ≤ 2 ∧
    (∀ r : Response, env.send 0 = .ok r → r.status = 401 →
      getAuthToken env.auth true ≠ "" →
      (executeWithRetry env h).2.sends = 2 ∧
      (executeWithRetry env h).2.h2 =
        some (some ("Bearer " ++ getAuthToken env.auth true)) ∧
      (∀ r2 : Response, env.send 1 = .ok r2 →
        (executeWithRetry env h).1 = .ok (parseResponse r2)) ∧
      (∀ f : String, env.send 1 = .error f →
        (executeWithRetry env h).1 = .error f)) := by
  refine ⟨exec_sends_le env h, ?_⟩
  intro r hs h401 htok
  cases hs1 : env.send 1 with
  | error f =>
    rw [exec_retry_error env h r f hs h401 htok hs1]
    refine ⟨rfl, rfl, ?_, ?_⟩
    · intro r2 hr2
      simp at hr2
    · intro f2 hf2
      injection hf2 with he
      rw [he]
  | ok r2 =>
    rw [exec_retry_ok env h r r2 hs h401 htok hs1]
    refine ⟨rfl, rfl, ?_, ?_⟩
    · intro r2' hr2
      injection hr2 with he
      rw [he]
    · intro f hf
      simp at hf

/-- Claim C3: for every logical request that receives a 401 and whose
forced token refresh fails, the executor emits `onTokenRefreshFailed`
exactly once with a non-null error, performs no retry, and returns the
original 401 response unchanged, never looping. -/
theorem executor_401_refresh_failed_original (env : ExecEnv)
    (h : Option String) (r : Response) (hs : env.send 0 = .ok r)
    (h401 : r.status = 401) (htok : getAuthToken env.auth true = "") :
    (executeWithRetry env h).2.refreshFailedErrors
      = ["Failed to refresh token"] ∧
    (executeWithRetry env h).2.sends = 1 ∧
    (executeWithRetry env h).2.h2 = none ∧
    (executeWithRetry env h).1 = .ok (parseResponse r) ∧
    (executeWithRetry env h).2.signOutCalls = 0 ∧
    (executeWithRetry env h).2.logoutCalls = 0 := by
  rw [exec_refresh_failed env h r hs h401 htok]
  exact ⟨rfl, rfl, rfl, rfl, rfl, rfl⟩

/-- Claim C7: responses with a status other than 401/403 are returned
unchanged, and transport-level faults (first attempt or retry) propagate
to the caller unmodified, never intercepted by the auth layer. -/
theorem executor_passthrough_other (env : ExecEnv) (h : Option String) :
    (∀ f : String, env.send 0 = .error f →
      (executeWithRetry env h).1 = .error f ∧
      (executeWithRetry env h).2.sends = 1 ∧
      (executeWithRetry env h).2.refreshFailedErrors = [] ∧
      (executeWithRetry env h).2.signOutCalls = 0 ∧
      (executeWithRetry env h).2.logoutCalls = 0) ∧
    (∀ r : Response, env.send 0 = .ok r → r.status ≠ 401 → r.status ≠ 403 →
      (executeWithRetry env h).1 = .ok (parseResponse r) ∧
      (parseResponse r).status = r.status ∧
      (parseResponse r).ok = r.ok ∧
      (parseResponse r).data = r.body ∧
      (executeWithRetry env h).2.sends = 1 ∧
      (executeWithRetry env h).2.refreshFailedErrors = [] ∧
      (executeWithRetry env h).2.signOutCalls = 0 ∧
      (executeWithRetry env h).2.logoutCalls = 0) ∧
    (∀ r : Response, ∀ f : String, env.send 0 = .ok r → r.status = 401 →
      getAuthToken env.auth true ≠ "" → env.send 1 = .error f →
      (executeWithRetry env h).1 = .error f) := by
  refine ⟨?_, ?_, ?_⟩
  · intro f hs
    rw [exec_send0_error env h f hs]
    exact ⟨rfl, rfl, rfl, rfl, rfl⟩
  · intro r hs h401 h403
    rw [exec_other env h r hs h401, finishResponse_not403 env r _ h403]
    exact ⟨rfl, rfl, rfl, rfl, rfl, rfl, rfl, rfl⟩
  · intro r f hs h401 htok hs1
    rw [exec_retry_error env h r f hs h401 htok hs1]

/-- Claim C8: for every logical request, the executor emits at most one
of the two notifications `onLogout` and `onTokenRefreshFailed`, never
both on the same request, and never more than once per request. -/
theorem executor_at_most_one_callback (env : ExecEnv) (h : Option String) :
    (executeWithRetry env h).2.refreshFailedErrors.length
      + (executeWithRetry env h).2.logoutCalls ≤ 1 ∧
    (executeWithRetry env h).2.refreshFailedErrors.length ≤ 1 ∧
    (executeWithRetry env h).2.logoutCalls ≤ 1 := by
  have hc := exec_callbacks_le env h
  exact ⟨hc, by omega, by omega⟩

/-- Claim C2 counterexample: a request whose `Transport.send` returns 403
while `getFirebaseAuth()` is null — the executor returns the 403 without
ever calling `signOut`, so `endSession` is not called exactly once. -/
theorem executor_403_no_signout_counterexample :
    env403noauth.send 0 = .ok { ok := false, status := 403, body := "denied" } ∧
    (executeWithRetry env403noauth none).2.sends = 1 ∧
    (executeWithRetry env403noauth none).2.signOutCalls = 0 ∧
    (executeWithRetry env403noauth none).2.logoutCalls = 0 ∧
    (executeWithRetry env403noauth none).1 =
      .ok (parseResponse { ok := false, status := 403, body := "denied" }) := by
  exact ⟨rfl, rfl, rfl, rfl, rfl⟩

/-- Claim C2 (amended): on a 403 response the executor does not retry
(one send), calls `signOut` exactly once when an auth instance is
available and zero times otherwise, invokes `onLogout` iff `signOut` was
invoked and succeeded, and returns the original 403 response unchanged. -/
theorem executor_403_logout_amended (env : ExecEnv) (h : Option String)
    (r : Response) (hs : env.send 0 = .ok r) (h403 : r.status = 403) :
    (executeWithRetry env h).2.sends = 1 ∧
    (executeWithRetry env h).2.signOutCalls
      = (if env.auth.isSome then 1 else 0) ∧
    ((executeWithRetry env h).2.logoutCalls = 1 ↔
      (executeWithRetry env h).2.signOutCalls = 1 ∧ env.signOutOk = true) ∧
    (executeWithRetry env h).2.logoutCalls ≤ 1 ∧
    (executeWithRetry env h).1 = .ok (parseResponse r) ∧
    (executeWithRetry env h).2.refreshFailedErrors = [] := by
  have h401 : r.status ≠ 401 := by rw [h403]; decide
  rw [exec_other env h r hs h401, finishResponse_403 env r _ h403]
  refine ⟨rfl, ?_, ?_, ?_, rfl, rfl⟩
  · cases env.auth with
    | none => simp [logoutUser]
    | some a => cases hso : env.signOutOk <;> simp [logoutUser]
  · cases env.auth with
    | none => simp [logoutUser]
    | some a => cases hso : env.signOutOk <;> simp [logoutUser, hso]
  · exact logoutUser_snd_le env.auth env.signOutOk

/-- Claim C6 counterexample: the caller supplied an `Authorization`
entry whose value is the empty string; the executor treated it as
absent and overwrote it with the injected bearer token on the first
attempt. -/
theorem executor_header_override_counterexample :
    (some "" : Option String) ≠ none ∧
    (executeWithRetry envOverride (some "")).2.h1 = some ("Bearer tok") ∧
    (executeWithRetry envOverride (some "")).2.h1 ≠ some "" := by
  refine ⟨by decide, by decide, by decide⟩

/-- Claim C6 (amended): on the first attempt, a caller-supplied
non-empty `Authorization` entry is never overwritten; otherwise the
executor asks for a cached token and injects `Bearer <token>` when one
is returned; when no token is available the request still proceeds
(at least one send) with the headers unchanged. -/
theorem executor_header_injection (env : ExecEnv) (h : Option String) :
    (hasAuthHeader h = true → (executeWithRetry env h).2.h1 = h) ∧
    (hasAuthHeader h = false → getAuthToken env.auth false ≠ "" →
      (executeWithRetry env h).2.h1
        = some ("Bearer " ++ getAuthToken env.auth false)) ∧
    (hasAuthHeader h = false → getAuthToken env.auth false = "" →
      (executeWithRetry env h).2.h1 = h) ∧
    1 ≤ (executeWithRetry env h).2.sends := by
  refine ⟨?_, ?_, ?_, exec_sends_ge env h⟩
  · intro hh
    rw [exec_h1, injectAuthToken_has env.auth h hh]
  · intro hh htok
    rw [exec_h1, injectAuthToken_inject env.auth h hh htok]
  · intro hh htok
    rw [exec_h1, injectAuthToken_skip env.auth h hh htok]

/-- Claim C9: `getAuthToken` is total and returns the empty string when
there is no auth instance, no current user, or `getIdToken` throws; the
executor treats the empty string as "no token": it never injects it and
never retries with it, reporting a refresh failure instead. -/
theorem getAuthToken_empty_sentinel :
    (∀ fr : Bool, getAuthToken none fr = "") ∧
    (∀ fr : Bool, ∀ a : FirebaseAuth, a.currentUser = none →
      getAuthToken (some a) fr = "") ∧
    (∀ fr : Bool, ∀ a : FirebaseAuth, ∀ u : FirebaseUser, ∀ e : String,
      a.currentUser = some u → u.getIdToken fr = .error e →
      getAuthToken (some a) fr = "") ∧
    (∀ env : ExecEnv, ∀ h : Option String, getAuthToken env.auth false = "" →
      (executeWithRetry env h).2.h1 = h) ∧
    (∀ env : ExecEnv, ∀ h : Option String, ∀ r : Response,
      env.send 0 = .ok r → r.status = 401 → getAuthToken env.auth true = "" →
      (executeWithRetry env h).2.sends = 1 ∧
      (executeWithRetry env h).2.h2 = none ∧
      (executeWithRetry env h).2.refreshFailedErrors
        = ["Failed to refresh token"]) := by
  refine ⟨?_, ?_, ?_, ?_, ?_⟩
  · intro fr
    rfl
  · intro fr a ha
    simp [getAuthToken, ha]
  · intro fr a u e ha hu
    simp [getAuthToken, ha, hu]
  · intro env h htok
    rw [exec_h1]
    by_cases hh : hasAuthHeader h = true
    · exact injectAuthToken_has env.auth h hh
    · exact injectAuthToken_skip env.auth h (by simpa using hh) htok
  · intro env h r hs h401 htok
    rw [exec_refresh_failed env h r hs h401 htok]
    exact ⟨rfl, rfl, rfl⟩

lemma getStep_stale (st : TokenCacheState) (now : Nat) (f : Bool)
    (hst : isFresh st now = false) :
    getStep st now f = startOrJoin st := by
  unfold getStep
  cases htok : st.token with
  | none => rfl
  | some t =>
    simp [hst]

lemma startOrJoin_token (st : TokenCacheState) :
    (startOrJoin st).2.token = st.token := by
  unfold startOrJoin
  split <;> rfl

lemma startOrJoin_ttl (st : TokenCacheState) :
    (startOrJoin st).2.ttlMs = st.ttlMs := by
  unfold startOrJoin
  split <;> rfl

lemma startOrJoin_inFlight (st : TokenCacheState) :
    (startOrJoin st).2.inFlight = true := by
  unfold startOrJoin
  split
  · assumption
  · rfl

lemma startOrJoin_waiters (st : TokenCacheState) :
    (startOrJoin st).2.waiters = st.waiters + 1 := by
  unfold startOrJoin
  split <;> rfl

lemma startOrJoin_fetches_inflight (st : TokenCacheState)
    (hin : st.inFlight = true) :
    (startOrJoin st).2.fetches = st.fetches := by
  unfold startOrJoin
  rw [if_pos hin]

lemma startOrJoin_fetches_fresh (st : TokenCacheState)
    (hin : st.inFlight = false) :
    (startOrJoin st).2.fetches = st.fetches + 1 := by
  unfold startOrJoin
  rw [if_neg (by simp [hin])]

lemma isFresh_congr (st st2 : TokenCacheState) (now : Nat)
    (htok : st2.token = st.token) (httl : st2.ttlMs = st.ttlMs) :
    isFresh st2 now = isFresh st now := by
  unfold isFresh
  rw [htok, httl]

lemma runBatch_inflight (now : Nat) (f : Bool) (n : Nat) :
    ∀ st : TokenCacheState, st.inFlight = true → isFresh st now = false →
      runBatch st now f n =
        { st with waiters := st.waiters + n } := by
  induction n with
  | zero =>
    intro st hin hst
    show st = _
    cases st
    rfl
  | succ m ih =>
    intro st hin hst
    show runBatch (getStep st now f).2 now f m = _
    rw [getStep_stale st now f hst]
    have hst2 : isFresh (startOrJoin st).2 now = false := by
      rw [isFresh_congr st (startOrJoin st).2 now (startOrJoin_token st)
        (startOrJoin_ttl st)]
      exact hst
    rw [ih (startOrJoin st).2 (startOrJoin_inFlight st) hst2]
    unfold startOrJoin
    rw [if_pos hin]
    simp [Nat.add_assoc, Nat.add_comm 1 m]

/-- Claim C4: for `n ≥ 1` concurrent requests issued while the cache is
empty or stale, at most one in-flight fetch exists: the provider's
`fetchToken` is invoked exactly once, and once that fetch resolves all
`n` requests observe the same resulting token or the same failure,
never triggering a second upstream fetch. -/
theorem tokenCache_single_flight (st : TokenCacheState) (now : Nat)
    (f : Bool) (n : Nat) (hn : 1 ≤ n) (hstale : isFresh st now = false)
    (hin : st.inFlight = false) (hw : st.waiters = 0) :
    (runBatch st now f n).fetches = st.fetches + 1 ∧
    (runBatch st now f n).waiters = n ∧
    (runBatch st now f n).inFlight = true ∧
    ∀ res : Except String String,
      (resolveFetch (runBatch st now f n) now res).1 =
        List.replicate n (deliver now res) := by
  cases n with
  | zero => cases hn
  | succ m =>
    have hstep : runBatch st now f (m + 1)
        = runBatch (startOrJoin st).2 now f m := by
      show runBatch (getStep st now f).2 now f m = _
      rw [getStep_stale st now f hstale]
    have hst2 : isFresh (startOrJoin st).2 now = false := by
      rw [isFresh_congr st (startOrJoin st).2 now (startOrJoin_token st)
        (startOrJoin_ttl st)]
      exact hstale
    have hrest := runBatch_inflight now f m (startOrJoin st).2
      (startOrJoin_inFlight st) hst2
    rw [hstep, hrest]
    have hfet : (startOrJoin st).2.fetches = st.fetches + 1 :=
      startOrJoin_fetches_fresh st hin
    have hwai : (startOrJoin st).2.waiters = st.waiters + 1 :=
      startOrJoin_waiters st
    refine ⟨hfet, ?_, startOrJoin_inFlight st, ?_⟩
    · show (startOrJoin st).2.waiters + m = m + 1
      rw [hwai, hw]
      omega
    · intro res
      have hwtotal :
          ({ (startOrJoin st).2 with
              waiters := (startOrJoin st).2.waiters + m } :
            TokenCacheState).waiters = m + 1 := by
        show (startOrJoin st).2.waiters + m = m + 1
        rw [hwai, hw]
        omega
      cases res with
      | ok v =>
        unfold resolveFetch
        rw [hwtotal]
        rfl
      | error e =>
        unfold resolveFetch
        rw [hwtotal]
        rfl

lemma startOrJoin_fst (st : TokenCacheState) :
    (startOrJoin st).1 = .awaiting := by
  unfold startOrJoin
  split <;> rfl

/-- Claim C5: with TTL = 300000 ms, a token fetched at t=0 is reused
unchanged, with no provider call and no state change, by a request at
t=100000; a request at t=301000 starts exactly one new provider fetch;
and in general a non-forced `get` with a fresh cached token returns it
immediately with no I/O. -/
theorem tokenCache_ttl_freshness (v : String) (st : TokenCacheState)
    (httl : st.ttlMs = 300000)
    (htok : st.token = some { value := v, issuedAt := 0 })
    (hin : st.inFlight = false) :
    getStep st 100000 false
      = (.immediate { value := v, issuedAt := 0 }, st) ∧
    (getStep st 301000 false).1 = .awaiting ∧
    (getStep st 301000 false).2.fetches = st.fetches + 1 ∧
    (getStep st 301000 false).2.inFlight = true ∧
    (∀ st2 : TokenCacheState, ∀ now : Nat, ∀ t : Token,
      st2.token = some t → isFresh st2 now = true →
      getStep st2 now false = (.immediate t, st2)) := by
  have hfresh : isFresh st 100000 = true := by
    simp [isFresh, htok, httl]
  have hstale : isFresh st 301000 = false := by
    simp [isFresh, htok, httl]
  refine ⟨?_, ?_, ?_, ?_, ?_⟩
  · simp [getStep, htok, hfresh]
  · rw [getStep_stale st 301000 false hstale, startOrJoin_fst]
  · rw [getStep_stale st 301000 false hstale,
      startOrJoin_fetches_fresh st hin]
  · rw [getStep_stale st 301000 false hstale, startOrJoin_inFlight]
  · intro st2 now t htok2 hfresh2
    simp [getStep, htok2, hfresh2]

lemma init_already (sdk : FirebaseSdk) (st : FirebaseInitState)
    (cfg : FirebaseConfig) (a au : Nat)
    (h1 : st.firebaseApp = some a) (h2 : st.firebaseAuth = some au) :
    initFirebaseAuth sdk st cfg =
      { result := .ok (a, au),
        state := { st with firebaseConfig := some cfg }, sdkCalls := 0 } := by
  obtain ⟨app, auth, cfg0⟩ := st
  simp only at h1 h2
  subst h1
  subst h2
  rfl

lemma init_ok_state (sdk : FirebaseSdk) (st : FirebaseInitState)
    (cfg : FirebaseConfig) (a au : Nat)
    (hs : (initFirebaseAuth sdk st cfg).result = .ok (a, au)) :
    (initFirebaseAuth sdk st cfg).state.firebaseApp = some a ∧
    (initFirebaseAuth sdk st cfg).state.firebaseAuth = some au := by
  obtain ⟨app, auth, cfg0⟩ := st
  cases app <;> cases auth <;>
    simp_all [initFirebaseAuth] <;>
    split at hs <;> simp_all <;>
    (obtain ⟨h1, h2⟩ := hs; rw [h1] at h2; exact h2)

/-- Claim C10: once `initializeFirebaseAuth` has succeeded, every
subsequent call returns the same app and auth instances without
re-initializing (zero SDK construction calls), and
`getFirebaseApp`/`getFirebaseAuth` return exactly those instances — or
null before any initialization. -/
theorem initFirebaseAuth_idempotent (sdk : FirebaseSdk)
    (st : FirebaseInitState) (cfg : FirebaseConfig) (a au : Nat)
    (hs : (initFirebaseAuth sdk st cfg).result = .ok (a, au)) :
    getFirebaseApp (initFirebaseAuth sdk st cfg).state = some a ∧
    getFirebaseAuth (initFirebaseAuth sdk st cfg).state = some au ∧
    (∀ sdk2 : FirebaseSdk, ∀ cfg2 : FirebaseConfig,
      (initFirebaseAuth sdk2 (initFirebaseAuth sdk st cfg).state cfg2).result
        = .ok (a, au) ∧
      (initFirebaseAuth sdk2 (initFirebaseAuth sdk st cfg).state cfg2).sdkCalls
        = 0 ∧
      getFirebaseApp
        (initFirebaseAuth sdk2 (initFirebaseAuth sdk st cfg).state cfg2).state
        = some a ∧
      getFirebaseAuth
        (initFirebaseAuth sdk2 (initFirebaseAuth sdk st cfg).state cfg2).state
        = some au) ∧
    getFirebaseApp emptyFirebaseInitState = none ∧
    getFirebaseAuth emptyFirebaseInitState = none := by
  obtain ⟨hA, hB⟩ := init_ok_state sdk st cfg a au hs
  refine ⟨hA, hB, ?_, rfl, rfl⟩
  intro sdk2 cfg2
  rw [init_already sdk2 (initFirebaseAuth sdk st cfg).state cfg2 a au hA hB]
  exact ⟨rfl, rfl, hA, hB⟩

/-- Witness for claim C1 at a concrete 401-then-200 environment. -/
theorem executor_401_retry_once_witness :
    (executeWithRetry env401retry none).2.sends = 2 ∧
    (executeWithRetry env401retry none).1
      = .ok (parseResponse { ok := true, status := 200, body := "fresh" }) := by
  have hmain := (executor_401_retry_once_bounded env401retry none).2
    { ok := false, status := 401, body := "u" } rfl rfl (by decide)
  exact ⟨hmain.1, hmain.2.2.1 { ok := true, status := 200, body := "fresh" } rfl⟩

/-- Witness for claim C2 (amended) at a concrete 403 environment with an
auth instance and a succeeding `signOut`. -/
theorem executor_403_logout_witness :
    (executeWithRetry env403 none).2.sends = 1 ∧
    (executeWithRetry env403 none).2.signOutCalls = 1 ∧
    (executeWithRetry env403 none).2.logoutCalls = 1 ∧
    (executeWithRetry env403 none).1
      = .ok (parseResponse { ok := false, status := 403, body := "denied" }) := by
  have hmain := executor_403_logout_amended env403 none
    { ok := false, status := 403, body := "denied" } rfl rfl
  refine ⟨hmain.1, ?_, ?_, hmain.2.2.2.2.1⟩
  · exact hmain.2.1.trans (by decide)
  · exact hmain.2.2.1.mpr ⟨hmain.2.1.trans (by decide), rfl⟩

/-- Witness for claim C3 at a concrete 401 environment with no
authenticated user, so the forced refresh fails. -/
theorem executor_401_refresh_failed_witness :
    (executeWithRetry env401fail none).2.refreshFailedErrors
      = ["Failed to refresh token"] ∧
    (executeWithRetry env401fail none).2.sends = 1 ∧
    (executeWithRetry env401fail none).1
      = .ok (parseResponse { ok := false, status := 401, body := "u" }) := by
  have hmain := executor_401_refresh_failed_original env401fail none
    { ok := false, status := 401, body := "u" } rfl rfl rfl
  exact ⟨hmain.1, hmain.2.1, hmain.2.2.2.1⟩

/-- Witness for claim C4: three concurrent callers on an empty cache
produce exactly one provider fetch and all observe the same token. -/
theorem tokenCache_single_flight_witness :
    (runBatch cacheW 0 false 3).fetches = cacheW.fetches + 1 ∧
    (runBatch cacheW 0 false 3).waiters = 3 ∧
    (resolveFetch (runBatch cacheW 0 false 3) 0 (.ok "T2")).1
      = List.replicate 3 (deliver 0 (.ok "T2")) := by
  have hmain := tokenCache_single_flight cacheW 0 false 3 (by decide)
    (by decide) rfl rfl
  exact ⟨hmain.1, hmain.2.1, hmain.2.2.2 (.ok "T2")⟩

/-- Witness for claim C5: a cache holding `"T1"` fetched at t=0 with TTL
300000 ms serves t=100000 from the cache and starts one fetch at
t=301000. -/
theorem tokenCache_ttl_witness :
    getStep cacheFreshW 100000 false
      = (.immediate { value := "T1", issuedAt := 0 }, cacheFreshW) ∧
    (getStep cacheFreshW 301000 false).2.fetches = cacheFreshW.fetches + 1 := by
  have hmain := tokenCache_ttl_freshness "T1" cacheFreshW rfl rfl rfl
  exact ⟨hmain.1, hmain.2.2.1⟩

/-- Witness for claim C6 (amended): a non-empty caller header survives;
with no caller header the bearer token is injected. -/
theorem executor_header_injection_witness :
    (executeWithRetry envOverride (some "X")).2.h1 = some "X" ∧
    (executeWithRetry envOverride none).2.h1 = some ("Bearer tok") := by
  refine ⟨(executor_header_injection envOverride (some "X")).1 (by decide), ?_⟩
  have hmain := (executor_header_injection envOverride none).2.1 rfl (by decide)
  exact hmain.trans (by decide)

/-- Witness for claim C7: a transport fault propagates unchanged and a
200 response is returned as parsed. -/
theorem executor_passthrough_witness :
    (executeWithRetry envFault none).1 = .error "ECONNRESET" ∧
    (executeWithRetry env200 none).1
      = .ok (parseResponse { ok := true, status := 200, body := "hello" }) := by
  exact ⟨((executor_passthrough_other envFault none).1 "ECONNRESET" rfl).1,
    ((executor_passthrough_other env200 none).2.1
      { ok := true, status := 200, body := "hello" } rfl (by decide)
      (by decide)).1⟩

/-- Witness for claim C9: a throwing `getIdToken` yields the empty
string, and a failed forced refresh never produces a second attempt. -/
theorem getAuthToken_empty_witness :
    getAuthToken (some { currentUser := some (errUser "boom") }) true = "" ∧
    (executeWithRetry env401fail none).2.h2 = none := by
  have hmain := getAuthToken_empty_sentinel
  exact ⟨hmain.2.2.1 true { currentUser := some (errUser "boom") }
      (errUser "boom") "boom" rfl rfl,
    (hmain.2.2.2.2 env401fail none { ok := false, status := 401, body := "u" }
      rfl rfl rfl).2.1⟩

/-- Witness for claim C10: after a successful initialization from the
empty state, a second call returns the same instances with no SDK
construction calls. -/
theorem initFirebaseAuth_idempotent_witness :
    (initFirebaseAuth sdkW
      (initFirebaseAuth sdkW emptyFirebaseInitState cfgW).state cfgW).result
      = .ok (1, 11) ∧
    (initFirebaseAuth sdkW
      (initFirebaseAuth sdkW emptyFirebaseInitState cfgW).state cfgW).sdkCalls
      = 0 := by
  have hmain := initFirebaseAuth_idempotent sdkW emptyFirebaseInitState cfgW
    1 11 rfl
  exact ⟨(hmain.2.2.1 sdkW cfgW).1, (hmain.2.2.1 sdkW cfgW).2.1⟩
